import Mathlib

/-!
Shallow embedding of `src/backend/main.py` (FastAPI gateway for a WhatsApp
academic manager).  The handlers are modelled as pure functions from the
process configuration, the inbound request data and an explicit upstream
oracle (the `httpx` call results) to the HTTP outcome together with the
trace of upstream calls attempted.  Python-level behaviours that the
handlers rely on (dict truthiness, `dict.get`, `int(...)`, iteration,
pydantic field coercion) are modelled explicitly below.
-/

namespace Gateway

/-- JSON values, as produced by `response.json()` and consumed by the
handlers.  Numbers are modelled as integers (the payload fields the code
reads numerically are epoch seconds and participant counts). -/
inductive Json where
  | null : Json
  | bool (b : Bool) : Json
  | num (n : Int) : Json
  | str (s : String) : Json
  | arr (xs : List Json) : Json
  | obj (fields : List (String × Json)) : Json
deriving Repr

/-- Python truthiness of a JSON value (`if x:`): `None`, `False`, `0`,
`""` and empty containers are falsy. -/
def jsonTruthy : Json → Bool
  | .null => false
  | .bool b => b
  | .num n => n != 0
  | .str s => s != ""
  | .arr xs => !xs.isEmpty
  | .obj fs => !fs.isEmpty

/-- Truthiness of an `Optional[str]` (`if not authorization:`):
`None` and the empty string are falsy. -/
def truthyOpt : Option String → Bool
  | none => false
  | some s => s != ""

/-- Lookup in the field list of a JSON object (Python dict keys are unique; the
first binding is taken). -/
def lookupField (fs : List (String × Json)) (k : String) : Option Json :=
  fs.lookup k

/-- Python `d.get(k, default)`: raises `AttributeError` when the receiver
is not a dict. -/
def dictGetD (j : Json) (k : String) (d : Json) : Except String Json :=
  match j with
  | .obj fs => .ok ((lookupField fs k).getD d)
  | _ => .error "AttributeError: object has no attribute get"

/-- Python `d.get(k)` (default `None`): `none` means the key is absent. -/
def dictGet (j : Json) (k : String) : Except String (Option Json) :=
  match j with
  | .obj fs => .ok (lookupField fs k)
  | _ => .error "AttributeError: object has no attribute get"

/-- Python subscript `d[k]` with a string key: `KeyError` when the key is
absent, `TypeError` when the receiver is not a dict. -/
def itemAccess (j : Json) (k : String) : Except String Json :=
  match j with
  | .obj fs =>
    match lookupField fs k with
    | some v => .ok v
    | none => .error ("KeyError: " ++ k)
  | _ => .error "TypeError: value is not subscriptable with a string"

/-- Accumulator pass over decimal digits; `none` on the first non-digit
character. -/
def parseDigitsAux : List Char → Nat → Option Nat
  | [], acc => some acc
  | c :: cs, acc =>
    if c.isDigit then parseDigitsAux cs (acc * 10 + (c.toNat - 48))
    else none

/-- Strict parse of a signed decimal string, as `int(...)` performs on
its string argument (exotic accepted forms such as surrounding
whitespace or underscore separators are not modelled). -/
def pyIntParse (s : String) : Option Int :=
  match s.toList with
  | [] => none
  | c :: cs =>
    if c = '-' then
      if cs.isEmpty then none
      else (parseDigitsAux cs 0).map (fun n => -(n : Int))
    else if c = '+' then
      if cs.isEmpty then none
      else (parseDigitsAux cs 0).map (fun n => (n : Int))
    else (parseDigitsAux (c :: cs) 0).map (fun n => (n : Int))

/-- Python `int(x)`: identity on ints, 0/1 on bools, strict parse of a
decimal string, `TypeError`/`ValueError` otherwise. -/
def pyInt (j : Json) : Option Int :=
  match j with
  | .num n => some n
  | .bool b => some (if b then 1 else 0)
  | .str s => pyIntParse s
  | _ => none

/-- Python iteration `for x in v`: lists yield elements, strings yield
one-character strings, dicts yield their keys, everything else raises
`TypeError`. -/
def pyIter (j : Json) : Except String (List Json) :=
  match j with
  | .arr xs => .ok xs
  | .str s => .ok (s.toList.map (fun c => .str (String.singleton c)))
  | .obj fs => .ok (fs.map (fun p => .str p.1))
  | _ => .error "TypeError: object is not iterable"

/-- Pydantic coercion into a `str` field (lax mode accepts only strings). -/
def pyStrField (j : Json) : Option String :=
  match j with
  | .str s => some s
  | _ => none

/-- Pydantic coercion into an `Optional[str]` field. -/
def pyOptStrField (j : Json) : Option (Option String) :=
  match j with
  | .null => some none
  | .str s => some (some s)
  | _ => none

/-- Pydantic coercion into an `int` field (ints, and numeric strings in
lax mode; bools are rejected). -/
def pyIntField (j : Json) : Option Int :=
  match j with
  | .num n => some n
  | .str s => pyIntParse s
  | _ => none

/-- Pydantic coercion into a `bool` field (bools, the ints 0/1 and the
usual string spellings in lax mode). -/
def pyBoolField (j : Json) : Option Bool :=
  match j with
  | .bool b => some b
  | .num 0 => some false
  | .num 1 => some true
  | .str s =>
    if s ∈ ["true", "True", "yes", "on", "1"] then some true
    else if s ∈ ["false", "False", "no", "off", "0"] then some false
    else none
  | _ => none

/-- Process configuration read from the environment at startup
(`WHATSAPP_SERVICE_URL`, `WHATSAPP_API_KEY`; the key defaults to `""`
when unset). -/
structure Env where
  serviceUrl : String
  apiKey : String
deriving Repr, DecidableEq

/-- Function `get_headers` from `src/backend/main.py`: start from the
`Content-Type` entry, then either forward the inbound `Authorization`
value verbatim (when truthy), or fall back to the configured `x-api-key`
(when non-empty), or attach no credential. -/
def get_headers (apiKey : String) (authorization_header : Option String) :
    List (String × String) :=
  let headers := [("Content-Type", "application/json")]
  if truthyOpt authorization_header then
    headers ++ [("Authorization", authorization_header.getD "")]
  else if apiKey != "" then
    headers ++ [("x-api-key", apiKey)]
  else
    headers

/-- Header lookup in an outbound header set. -/
def lookupHeader (hs : List (String × String)) (k : String) : Option String :=
  hs.lookup k

/-- Pydantic model `WhatsAppStatus`. -/
structure WhatsAppStatus where
  success : Bool
  status : String
  phone : Option String
  timestamp : String
deriving Repr, DecidableEq

/-- Pydantic model `WhatsAppGroup`. -/
structure WhatsAppGroup where
  id : String
  name : String
  participants : Int
deriving Repr, DecidableEq

/-- Pydantic model `Message`. -/
structure Message where
  id : String
  from_user : String
  content : String
  timestamp : Int
  date : Option String
deriving Repr, DecidableEq

/-- Pydantic model `GroupsResponse`. -/
structure GroupsResponse where
  success : Bool
  count : Nat
  groups : List WhatsAppGroup
deriving Repr, DecidableEq

/-- Pydantic model `MessagesResponse`. -/
structure MessagesResponse where
  success : Bool
  count : Nat
  group_name : Option String
  messages : List Message
deriving Repr, DecidableEq

/-- An `httpx` response as observed by the handlers: the status code, the
raw text, and the result of `response.json()` (which may raise on a
malformed body). -/
structure HttpResponse where
  status_code : Nat
  text : String
  jsonBody : Except String Json

/-- Result of one upstream `httpx` call: either a response object or a
transport-level exception (connection refused, timeout, DNS failure). -/
inductive CallResult where
  | response (r : HttpResponse)
  | transportError (err : String)

/-- Outcome of a handler as seen by the caller: a 200 body of the given
type, or an `HTTPException` with a status code and a detail string. -/
inductive Outcome (α : Type) where
  | ok (value : α)
  | httpError (status_code : Nat) (detail : String)
deriving Repr, DecidableEq

/-- Record of one upstream call attempted by a handler (method, full URL,
outbound headers, JSON body for POSTs). -/
structure UpstreamCall where
  method : String
  url : String
  headers : List (String × String)
  body : Option Json

/-- Predicate for `response.raise_for_status()`: it raises exactly when the status is not
2xx. -/
def is2xx (s : Nat) : Bool :=
  200 ≤ s && s < 300

/-- Two-digit zero padding for time components. -/
def pad2 (n : Nat) : String :=
  if n < 10 then "0" ++ toString n else toString n

/-- Civil date from days since the Unix epoch (era-based conversion).
Returns (year, month, day). -/
def civilFromDays (z0 : Int) : Int × Nat × Nat :=
  let z : Int := z0 + 719468
  let era : Int := Int.ediv z 146097
  let doe : Nat := (z - era * 146097).toNat
  let yoe : Nat := (doe - doe / 1460 + doe / 36524 - doe / 146096) / 365
  let y : Int := (yoe : Int) + era * 400
  let doy : Nat := doe - (365 * yoe + yoe / 4 - yoe / 100)
  let mp : Nat := (5 * doy + 2) / 153
  let d : Nat := doy - (153 * mp + 2) / 5 + 1
  let m : Nat := if mp < 10 then mp + 3 else mp - 9
  (if m ≤ 2 then y + 1 else y, m, d)

/-- Model of `datetime.fromtimestamp(n).strftime("%Y-%m-%d %H:%M:%S")`.  The
process-local timezone is modelled as UTC; `fromtimestamp` range errors
on astronomically large values are not modelled. -/
def formatTimestamp (n : Int) : String :=
  let days := Int.ediv n 86400
  let sod := (Int.emod n 86400).toNat
  let ymd := civilFromDays days
  toString ymd.1 ++ "-" ++ pad2 ymd.2.1 ++ "-" ++ pad2 ymd.2.2 ++ " " ++
    pad2 (sod / 3600) ++ ":" ++ pad2 (sod % 3600 / 60) ++ ":" ++ pad2 (sod % 60)

/-- Build a `WhatsAppStatus` from the upstream JSON body, with `now` the
gateway clock string used as the default when `timestamp` is absent
(`datetime.now(timezone.utc).isoformat()` in the source). -/
def statusFromJson (data : Json) (now : String) : Except String WhatsAppStatus :=
  match dictGetD data "success" (.bool true) with
  | .error e => .error e
  | .ok successJ =>
    match dictGetD data "status" (.str "unknown") with
    | .error e => .error e
    | .ok statusJ =>
      match dictGet data "phone" with
      | .error e => .error e
      | .ok phoneJ =>
        match dictGetD data "timestamp" (.str now) with
        | .error e => .error e
        | .ok timestampJ =>
          match pyBoolField successJ, pyStrField statusJ,
              pyOptStrField (phoneJ.getD .null), pyStrField timestampJ with
          | some su, some st, some ph, some ts => .ok ⟨su, st, ph, ts⟩
          | _, _, _, _ => .error "ValidationError: WhatsAppStatus"

/-- Conversion `WhatsAppGroup(id=group["id"], name=group["name"],
participants=group["participants"])`: direct subscripting (a missing key
raises `KeyError`), then pydantic field validation. -/
def parseGroup (g : Json) : Except String WhatsAppGroup :=
  match itemAccess g "id" with
  | .error e => .error e
  | .ok idJ =>
    match itemAccess g "name" with
    | .error e => .error e
    | .ok nameJ =>
      match itemAccess g "participants" with
      | .error e => .error e
      | .ok partsJ =>
        match pyStrField idJ, pyStrField nameJ, pyIntField partsJ with
        | some i, some n, some p => .ok ⟨i, n, p⟩
        | _, _, _ => .error "ValidationError: WhatsAppGroup"

/-- The list comprehension over `data.get("groups", [])`: elements are
converted in order and the first exception aborts the whole request. -/
def parseGroupList : List Json → Except String (List WhatsAppGroup)
  | [] => .ok []
  | g :: gs =>
    match parseGroup g with
    | .error e => .error e
    | .ok w =>
      match parseGroupList gs with
      | .error e => .error e
      | .ok ws => .ok (w :: ws)

/-- The groups transformer applied to a 200 JSON body: `count` is the
length of the converted list, `success` is `data.get("success", True)`. -/
def groupsFromJson (data : Json) : Except String GroupsResponse :=
  match dictGetD data "groups" (.arr []) with
  | .error e => .error e
  | .ok groupsJ =>
    match pyIter groupsJ with
    | .error e => .error e
    | .ok items =>
      match parseGroupList items with
      | .error e => .error e
      | .ok groups =>
        match dictGetD data "success" (.bool true) with
        | .error e => .error e
        | .ok successJ =>
          match pyBoolField successJ with
          | some su => .ok ⟨su, groups.length, groups⟩
          | none => .error "ValidationError: GroupsResponse"

/-- Python `==` between a JSON value and a `str` (values of different
types compare unequal, without raising). -/
def pyEqStr (j : Json) (s : String) : Bool :=
  match j with
  | .str t => t == s
  | _ => false

/-- The group-name loop: walk the groups list, on the first record whose
`"id"` equals `group_id` take its `"name"` and break; `none` when no
record matches.  Subscript failures abort the request. -/
def resolveGroupName : List Json → String → Except String (Option Json)
  | [], _ => .ok none
  | g :: gs, gid =>
    match itemAccess g "id" with
    | .error e => .error e
    | .ok idJ =>
      if pyEqStr idJ gid then
        match itemAccess g "name" with
        | .error e => .error e
        | .ok nameJ => .ok (some nameJ)
      else
        resolveGroupName gs gid

/-- One iteration of the per-message loop; `none` models the
`except Exception: continue` (the message is silently skipped). -/
def processMsg (msg : Json) : Option Message :=
  match msg with
  | .obj fs =>
    let tsRaw := lookupField fs "timestamp"
    let dateStep : Option String :=
      match tsRaw with
      | some v =>
        if jsonTruthy v then (pyInt v).map formatTimestamp
        else some "Unknown"
      | none => some "Unknown"
    match dateStep with
    | none => none
    | some date_str =>
      let idJ := (lookupField fs "id").getD (.str "")
      let fromJ := (lookupField fs "from_user").getD
        ((lookupField fs "from").getD (.str "Unknown"))
      let contentJ := (lookupField fs "content").getD (.str "")
      let tsJ := tsRaw.getD (.num 0)
      match pyStrField idJ, pyStrField fromJ, pyStrField contentJ, pyIntField tsJ with
      | some i, some f, some c, some t => some ⟨i, f, c, t, some date_str⟩
      | _, _, _, _ => none
  | _ => none

/-- The messages transformer: resolve the group name from the secondary
groups body, convert each message (skipping failures per message), set
`count` to the number of messages kept. -/
def buildMessagesResponse (data gdata : Json) (group_id : String) :
    Except String MessagesResponse :=
  match dictGetD gdata "groups" (.arr []) with
  | .error e => .error e
  | .ok groupsJ =>
    match pyIter groupsJ with
    | .error e => .error e
    | .ok groupItems =>
      match resolveGroupName groupItems group_id with
      | .error e => .error e
      | .ok nameJ =>
        match dictGetD data "messages" (.arr []) with
        | .error e => .error e
        | .ok msgsJ =>
          match pyIter msgsJ with
          | .error e => .error e
          | .ok msgItems =>
            let messages := msgItems.filterMap processMsg
            match dictGetD data "success" (.bool true) with
            | .error e => .error e
            | .ok successJ =>
              match pyBoolField successJ, pyOptStrField (nameJ.getD .null) with
              | some su, some gn => .ok ⟨su, messages.length, gn, messages⟩
              | _, _ => .error "ValidationError: MessagesResponse"

/-- Handler for `GET /api/whatsapp/status`: no authentication pre-check; one upstream
call; non-2xx surfaces via `raise_for_status` with the upstream status and
text; any other failure surfaces as 503. -/
def get_whatsapp_status (env : Env) (now : String) (authorization : Option String)
    (upstream : CallResult) : Outcome WhatsAppStatus × List UpstreamCall :=
  let headers := get_headers env.apiKey authorization
  let call : UpstreamCall := ⟨"GET", env.serviceUrl ++ "/api/status", headers, none⟩
  match upstream with
  | .transportError e =>
    (.httpError 503 ("WhatsApp service unavailable: " ++ e), [call])
  | .response r =>
    if is2xx r.status_code then
      match r.jsonBody with
      | .error e => (.httpError 503 ("WhatsApp service unavailable: " ++ e), [call])
      | .ok data =>
        match statusFromJson data now with
        | .ok st => (.ok st, [call])
        | .error e => (.httpError 503 ("WhatsApp service unavailable: " ++ e), [call])
    else
      (.httpError r.status_code ("WhatsApp service error: " ++ r.text), [call])

/-- Handler for `GET /api/whatsapp/groups`: 401 before any upstream call when the
inbound `Authorization` is falsy and no API key is configured; otherwise
one upstream call, with non-200 statuses passed through and other
failures surfaced as 503. -/
def get_whatsapp_groups (env : Env) (authorization : Option String)
    (upstream : CallResult) : Outcome GroupsResponse × List UpstreamCall :=
  if !truthyOpt authorization && env.apiKey == "" then
    (.httpError 401 "Authentication required. Please login first.", [])
  else
    let headers := get_headers env.apiKey authorization
    let call : UpstreamCall := ⟨"GET", env.serviceUrl ++ "/api/groups", headers, none⟩
    match upstream with
    | .transportError e =>
      (.httpError 503 ("WhatsApp service unavailable: " ++ e), [call])
    | .response r =>
      if r.status_code != 200 then
        (.httpError r.status_code ("WhatsApp service error: " ++ r.text), [call])
      else
        match r.jsonBody with
        | .error e => (.httpError 503 ("WhatsApp service unavailable: " ++ e), [call])
        | .ok data =>
          match groupsFromJson data with
          | .ok resp => (.ok resp, [call])
          | .error e => (.httpError 503 ("WhatsApp service unavailable: " ++ e), [call])

/-- Handler for `GET /api/whatsapp/messages/{group_id}`: 401 pre-check as for groups;
then the messages call, then (only if it yielded a 200 with a JSON body)
the secondary groups call, whose status is never checked — its body is
parsed directly. -/
def get_group_messages (env : Env) (group_id : String) (limit : Int)
    (authorization : Option String) (upstreamMessages upstreamGroups : CallResult) :
    Outcome MessagesResponse × List UpstreamCall :=
  if !truthyOpt authorization && env.apiKey == "" then
    (.httpError 401 "Authentication required. Please login first.", [])
  else
    let headers := get_headers env.apiKey authorization
    let msgCall : UpstreamCall :=
      ⟨"GET", env.serviceUrl ++ "/api/messages/" ++ group_id ++ "?limit=" ++ toString limit,
        headers, none⟩
    let grpCall : UpstreamCall := ⟨"GET", env.serviceUrl ++ "/api/groups", headers, none⟩
    match upstreamMessages with
    | .transportError e =>
      (.httpError 503 ("WhatsApp service unavailable: " ++ e), [msgCall])
    | .response r =>
      if r.status_code != 200 then
        (.httpError r.status_code ("WhatsApp service error: " ++ r.text), [msgCall])
      else
        match r.jsonBody with
        | .error e => (.httpError 503 ("WhatsApp service unavailable: " ++ e), [msgCall])
        | .ok data =>
          match upstreamGroups with
          | .transportError e =>
            (.httpError 503 ("WhatsApp service unavailable: " ++ e), [msgCall, grpCall])
          | .response gr =>
            match gr.jsonBody with
            | .error e =>
              (.httpError 503 ("WhatsApp service unavailable: " ++ e), [msgCall, grpCall])
            | .ok gdata =>
              match buildMessagesResponse data gdata group_id with
              | .ok resp => (.ok resp, [msgCall, grpCall])
              | .error e =>
                (.httpError 503 ("WhatsApp service unavailable: " ++ e), [msgCall, grpCall])

/-- Handler for `POST /api/send` (representative pass-through route): the caller body
is parsed inside the `try` block before the upstream call (a parse
failure is caught by the generic handler as a 503); there is no
authentication pre-check; `raise_for_status` passes upstream non-2xx
statuses through with the raw upstream text as the detail. -/
def send_message (env : Env) (body : Except String Json)
    (authorization : Option String) (upstream : CallResult) :
    Outcome Json × List UpstreamCall :=
  match body with
  | .error e => (.httpError 503 e, [])
  | .ok b =>
    let headers := get_headers env.apiKey authorization
    let call : UpstreamCall := ⟨"POST", env.serviceUrl ++ "/api/send", headers, some b⟩
    match upstream with
    | .transportError e => (.httpError 503 e, [call])
    | .response r =>
      if is2xx r.status_code then
        match r.jsonBody with
        | .error e => (.httpError 503 e, [call])
        | .ok j => (.ok j, [call])
      else
        (.httpError r.status_code r.text, [call])

/-- Does the upstream result of the status route carry a JSON object
containing a `"timestamp"` key?  When it does (or when the call fails
before that point), the handler result does not depend on the gateway
clock. -/
def statusBodyHasTimestamp : CallResult → Bool
  | .transportError _ => true
  | .response r =>
    match r.jsonBody with
    | .ok (.obj fs) => (lookupField fs "timestamp").isSome
    | _ => true

/-- Does a group record have an `"id"` field equal to the requested id? -/
def groupIdMatches (g : Json) (gid : String) : Bool :=
  match g with
  | .obj fs =>
    match lookupField fs "id" with
    | some v => pyEqStr v gid
    | none => false
  | _ => false

/-- Specification-side definition, written from the words of the claim
about group-name resolution (not from the source): the `"name"` field of
the first group record whose `"id"` equals the requested group id, `none`
when no record matches. -/
def specFirstGroupName (gs : List Json) (gid : String) : Option Json :=
  match gs.find? (fun g => groupIdMatches g gid) with
  | some (.obj fs) => lookupField fs "name"
  | _ => none

/-- Group records that are objects lacking at least one of the three
required keys (`"id"`, `"name"`, `"participants"`). -/
def missingGroupKey (g : Json) : Bool :=
  match g with
  | .obj fs =>
    (lookupField fs "id").isNone || (lookupField fs "name").isNone ||
      (lookupField fs "participants").isNone
  | _ => false

/-- C2: for every inbound `Authorization` value and configured admin key,
the outbound header set always carries `Content-Type: application/json`;
a present non-empty `Authorization` value is forwarded byte-for-byte with
no `x-api-key` entry; otherwise a non-empty configured key is sent as
`x-api-key` with no `Authorization` entry; otherwise neither credential
appears. -/
theorem C2_get_headers_credential_resolution (apiKey : String) (auth : Option String) :
    lookupHeader (get_headers apiKey auth) "Content-Type" = some "application/json" ∧
    (∀ s : String, auth = some s → s ≠ "" →
      lookupHeader (get_headers apiKey auth) "Authorization" = some s ∧
      lookupHeader (get_headers apiKey auth) "x-api-key" = none) ∧
    (truthyOpt auth = false → apiKey ≠ "" →
      lookupHeader (get_headers apiKey auth) "x-api-key" = some apiKey ∧
      lookupHeader (get_headers apiKey auth) "Authorization" = none) ∧
    (truthyOpt auth = false → apiKey = "" →
      lookupHeader (get_headers apiKey auth) "Authorization" = none ∧
      lookupHeader (get_headers apiKey auth) "x-api-key" = none) := by
  by_cases ha : truthyOpt auth = true
  · obtain ⟨s, hs, hne⟩ : ∃ s, auth = some s ∧ s ≠ "" := by
      cases auth with
      | none => simp [truthyOpt] at ha
      | some s => exact ⟨s, rfl, by simpa [truthyOpt] using ha⟩
    subst hs
    refine ⟨?_, ?_, ?_, ?_⟩ <;>
      simp [get_headers, lookupHeader, truthyOpt, hne, List.lookup, ha]
  · have ha' : truthyOpt auth = false := by simpa using ha
    have hforward : ∀ s : String, auth = some s → s ≠ "" → False := by
      intro s hs hne
      rw [hs] at ha'
      simp [truthyOpt] at ha'
      exact hne ha'
    by_cases hk : apiKey = ""
    · refine ⟨?_, ?_, ?_, ?_⟩
      · simp [get_headers, lookupHeader, ha', hk, List.lookup]
      · intro s hs hne
        exact absurd (hforward s hs hne) not_false
      · intro _ hk2
        exact absurd hk hk2
      · intro _ _
        constructor <;> simp [get_headers, lookupHeader, ha', hk, List.lookup]
    · refine ⟨?_, ?_, ?_, ?_⟩
      · simp [get_headers, lookupHeader, ha', hk, List.lookup]
      · intro s hs hne
        exact absurd (hforward s hs hne) not_false
      · intro _ _
        constructor <;> simp [get_headers, lookupHeader, ha', hk, List.lookup]
      · intro _ hkeq
        exact absurd hkeq hk

/-- Witness for C2 at the configured key `"k"` and the forwarded value
`"Bearer tok"`. -/
theorem C2_get_headers_credential_resolution_witness :
    lookupHeader (get_headers "k" (some "Bearer tok")) "Authorization" = some "Bearer tok" ∧
    lookupHeader (get_headers "k" (some "Bearer tok")) "x-api-key" = none :=
  (C2_get_headers_credential_resolution "k" (some "Bearer tok")).2.1 "Bearer tok" rfl
    (by decide)

/-- C1 counterexample: `POST /api/send` with no `Authorization` header and
no configured admin key does not return 401 — it forwards to upstream
(one call is made, carrying no credential) and relays the upstream
success. -/
theorem C1_counterexample :
    (send_message ⟨"http://u", ""⟩ (.ok (.obj [])) none
        (.response ⟨200, "ok", .ok (.obj [])⟩)).fst = .ok (.obj []) ∧
    (send_message ⟨"http://u", ""⟩ (.ok (.obj [])) none
        (.response ⟨200, "ok", .ok (.obj [])⟩)).snd.length = 1 ∧
    (send_message ⟨"http://u", ""⟩ (.ok (.obj [])) none
        (.response ⟨200, "ok", .ok (.obj [])⟩)).snd.map UpstreamCall.headers =
      [[("Content-Type", "application/json")]] :=
  ⟨rfl, rfl, rfl⟩

/-- C1 amended: the 401-without-upstream-call guarantee holds for the two
routes with an explicit credential pre-check, `GET /api/whatsapp/groups`
and `GET /api/whatsapp/messages/{group_id}` — with a falsy inbound
`Authorization` and no configured key they return 401 with the fixed
message and attempt no upstream call; the pass-through routes such as
`POST /api/send` perform no such pre-check and forward anyway. -/
theorem C1_amended_auth_precheck (env : Env) (auth : Option String)
    (u um ug : CallResult) (gid : String) (lim : Int)
    (hauth : truthyOpt auth = false) (hkey : env.apiKey = "") :
    get_whatsapp_groups env auth u =
      (.httpError 401 "Authentication required. Please login first.", []) ∧
    get_group_messages env gid lim auth um ug =
      (.httpError 401 "Authentication required. Please login first.", []) := by
  constructor <;> simp [get_whatsapp_groups, get_group_messages, hauth, hkey]

/-- Witness for C1 amended with no header and an unset key. -/
theorem C1_amended_auth_precheck_witness :
    get_whatsapp_groups ⟨"http://u", ""⟩ none (.transportError "down") =
      (.httpError 401 "Authentication required. Please login first.", []) :=
  (C1_amended_auth_precheck ⟨"http://u", ""⟩ none (.transportError "down")
    (.transportError "down") (.transportError "down") "g1" 50 rfl rfl).1

/-- C10: on every pass-through POST route (modelled by `/api/send`), a
caller body that fails to parse as JSON is caught by the generic
exception handler: the response is a 503 whose detail is the parse error
(not a 4xx), and no upstream call is attempted. -/
theorem C10_body_parse_failure_503 (env : Env) (e : String) (auth : Option String)
    (u : CallResult) :
    send_message env (.error e) auth u = (.httpError 503 e, []) :=
  rfl

/-- C5: when the upstream answers with a non-2xx status, the gateway
returns a failure with the same status code whose detail embeds the
upstream response body — on the group-list route with the fixed prefix,
and on the pass-through send route with the raw body. -/
theorem C5_upstream_status_passthrough (env : Env) (auth : Option String)
    (r : HttpResponse) (b : Json)
    (hauth : (!truthyOpt auth && env.apiKey == "") = false)
    (hs : is2xx r.status_code = false) :
    (get_whatsapp_groups env auth (.response r)).fst =
      .httpError r.status_code ("WhatsApp service error: " ++ r.text) ∧
    (send_message env (.ok b) auth (.response r)).fst =
      .httpError r.status_code r.text := by
  have h200 : r.status_code ≠ 200 := by
    intro h
    rw [h] at hs
    simp [is2xx] at hs
  constructor
  · simp [get_whatsapp_groups, hauth, h200]
  · simp [send_message, hs]

/-- Witness for C5: an upstream 404 whose body mentions "not found" on
the group-list call yields a 404 whose detail contains "not found". -/
theorem C5_upstream_status_passthrough_witness :
    (get_whatsapp_groups ⟨"http://u", "k"⟩ none
        (.response ⟨404, "error: not found", .ok .null⟩)).fst =
      .httpError 404 "WhatsApp service error: error: not found" :=
  (C5_upstream_status_passthrough ⟨"http://u", "k"⟩ none
    ⟨404, "error: not found", .ok .null⟩ .null (by decide) (by decide)).1

/-- C6: a transport-level failure (connection refused, timeout, DNS) on
the status or group-list route is surfaced as a 503 whose detail embeds
the underlying cause string, with exactly one upstream call attempted (no
retry, and the handler returns an outcome rather than crashing); a
malformed (non-JSON) 2xx response body is surfaced the same way. -/
theorem C6_transport_failure_503 (env : Env) (now : String) (auth : Option String)
    (e : String) :
    (get_whatsapp_status env now auth (.transportError e)).fst =
      .httpError 503 ("WhatsApp service unavailable: " ++ e) ∧
    (get_whatsapp_status env now auth (.transportError e)).snd.length = 1 ∧
    ((!truthyOpt auth && env.apiKey == "") = false →
      (get_whatsapp_groups env auth (.transportError e)).fst =
        .httpError 503 ("WhatsApp service unavailable: " ++ e) ∧
      (get_whatsapp_groups env auth (.transportError e)).snd.length = 1) ∧
    (∀ s t, is2xx s = true →
      (get_whatsapp_status env now auth (.response ⟨s, t, .error e⟩)).fst =
        .httpError 503 ("WhatsApp service unavailable: " ++ e)) := by
  refine ⟨rfl, rfl, ?_, ?_⟩
  · intro hauth
    constructor <;> simp [get_whatsapp_groups, hauth]
  · intro s t hs
    simp [get_whatsapp_status, hs]

/-- Witness for C6 at a concrete connection error against a configured
key. -/
theorem C6_transport_failure_503_witness :
    (get_whatsapp_groups ⟨"http://u", "k"⟩ none (.transportError "connection refused")).fst =
      .httpError 503 "WhatsApp service unavailable: connection refused" ∧
    (get_whatsapp_status ⟨"http://u", "k"⟩ "T" none
        (.response ⟨200, "not json", .error "invalid JSON"⟩)).fst =
      .httpError 503 "WhatsApp service unavailable: invalid JSON" := by
  have h := C6_transport_failure_503 ⟨"http://u", "k"⟩ "T" none "connection refused"
  have h2 := C6_transport_failure_503 ⟨"http://u", "k"⟩ "T" none "invalid JSON"
  exact ⟨(h.2.2.1 (by decide)).1, h2.2.2.2 200 "not json" (by decide)⟩

/-- C7 counterexample: the same status request issued twice against an
unchanged upstream (a 200 whose JSON object omits `timestamp`) yields
different results when the gateway clock has moved, because the handler
substitutes the current time for the missing field. -/
theorem C7_counterexample :
    (get_whatsapp_status ⟨"http://u", "k"⟩ "2024-01-01T00:00:00+00:00" none
        (.response ⟨200, "", .ok (.obj [])⟩)).fst ≠
    (get_whatsapp_status ⟨"http://u", "k"⟩ "2024-01-02T00:00:00+00:00" none
        (.response ⟨200, "", .ok (.obj [])⟩)).fst := by
  decide

/-- Status transformation does not depend on the gateway clock when the
body is not an object (it fails identically) or when the object carries a
`timestamp` key. -/
theorem statusFromJson_now_invariant (data : Json) (now₁ now₂ : String)
    (h : ∀ fs, data = .obj fs → (lookupField fs "timestamp").isSome = true) :
    statusFromJson data now₁ = statusFromJson data now₂ := by
  cases data with
  | obj fs =>
    obtain ⟨v, hv⟩ := Option.isSome_iff_exists.mp (h fs rfl)
    unfold statusFromJson
    simp [dictGetD, dictGet, hv]
  | null => rfl
  | bool b => rfl
  | num n => rfl
  | str s => rfl
  | arr xs => rfl

/-- C7 amended: the groups and messages handlers are functions of the
configuration, request and upstream responses alone, so repeating them
verbatim gives identical results; the status handler additionally reads
the gateway clock, but its result is clock-independent (hence repeatable)
whenever the upstream result satisfies `statusBodyHasTimestamp` — that
is, unless a 200 JSON object omits the `timestamp` key. -/
theorem C7_amended_idempotent (env : Env) (auth : Option String)
    (now₁ now₂ : String) (u : CallResult)
    (h : statusBodyHasTimestamp u = true) :
    get_whatsapp_status env now₁ auth u = get_whatsapp_status env now₂ auth u := by
  cases u with
  | transportError e => rfl
  | response r =>
    have hbody : ∀ fs, r.jsonBody = .ok (.obj fs) →
        (lookupField fs "timestamp").isSome = true := by
      intro fs hfs
      simp only [statusBodyHasTimestamp, hfs] at h
      exact h
    unfold get_whatsapp_status
    by_cases h2 : is2xx r.status_code = true
    · simp only [h2, if_true]
      cases hb : r.jsonBody with
      | error e => simp
      | ok data =>
        have hst := statusFromJson_now_invariant data now₁ now₂
          (fun fs hfs => hbody fs (by rw [hb, hfs]))
        simp [hst]
    · simp [h2]

/-- Witness for C7 amended: with `timestamp` present upstream, two calls
at different gateway times agree. -/
theorem C7_amended_idempotent_witness :
    get_whatsapp_status ⟨"http://u", "k"⟩ "T1" none
        (.response ⟨200, "", .ok (.obj [("timestamp", .str "2024-01-01")])⟩) =
    get_whatsapp_status ⟨"http://u", "k"⟩ "T2" none
        (.response ⟨200, "", .ok (.obj [("timestamp", .str "2024-01-01")])⟩) :=
  C7_amended_idempotent ⟨"http://u", "k"⟩ none "T1" "T2"
    (.response ⟨200, "", .ok (.obj [("timestamp", .str "2024-01-01")])⟩) (by decide)

/-- Any successful groups transformation sets `count` to the length of
the converted list. -/
theorem groupsFromJson_count (data : Json) (gr : GroupsResponse)
    (h : groupsFromJson data = .ok gr) : gr.count = gr.groups.length := by
  unfold groupsFromJson at h
  repeat' split at h
  all_goals cases h
  all_goals rfl

/-- Any successful messages transformation sets `count` to the length of
the kept messages. -/
theorem buildMessagesResponse_count (data gdata : Json) (gid : String)
    (mr : MessagesResponse) (h : buildMessagesResponse data gdata gid = .ok mr) :
    mr.count = mr.messages.length := by
  unfold buildMessagesResponse at h
  repeat' split at h
  all_goals cases h
  all_goals rfl

/-- Any successful groups-route outcome comes from a successful groups
transformation of some upstream body. -/
theorem get_whatsapp_groups_fst_ok (env : Env) (auth : Option String) (u : CallResult)
    (gr : GroupsResponse) (h : (get_whatsapp_groups env auth u).fst = .ok gr) :
    ∃ data, groupsFromJson data = .ok gr := by
  unfold get_whatsapp_groups at h
  repeat' split at h
  all_goals simp_all
  all_goals exact ⟨_, by assumption⟩

/-- Any successful messages-route outcome comes from a successful
messages transformation of some pair of upstream bodies. -/
theorem get_group_messages_fst_ok (env : Env) (gid : String) (lim : Int)
    (auth : Option String) (um ug : CallResult) (mr : MessagesResponse)
    (h : (get_group_messages env gid lim auth um ug).fst = .ok mr) :
    ∃ data gdata, buildMessagesResponse data gdata gid = .ok mr := by
  unfold get_group_messages at h
  repeat' split at h
  all_goals simp_all
  all_goals exact ⟨_, _, by assumption⟩

/-- C3: every successful `GroupsResponse` and every successful
`MessagesResponse` produced by the gateway has `count` equal to the
length of its `groups` (respectively `messages`) sequence, whatever the
upstream payload claimed. -/
theorem C3_count_invariant (env₁ env₂ : Env) (a₁ a₂ : Option String)
    (u um ug : CallResult) (gid : String) (lim : Int)
    (gr : GroupsResponse) (mr : MessagesResponse)
    (hg : (get_whatsapp_groups env₁ a₁ u).fst = .ok gr)
    (hm : (get_group_messages env₂ gid lim a₂ um ug).fst = .ok mr) :
    gr.count = gr.groups.length ∧ mr.count = mr.messages.length := by
  obtain ⟨data, hda⟩ := get_whatsapp_groups_fst_ok env₁ a₁ u gr hg
  obtain ⟨d2, g2, hdb⟩ := get_group_messages_fst_ok env₂ gid lim a₂ um ug mr hm
  exact ⟨groupsFromJson_count data gr hda, buildMessagesResponse_count d2 g2 gid mr hdb⟩

/-- Witness for C3 on upstream payloads that claim a wrong `count`. -/
theorem C3_count_invariant_witness :
    (⟨true, 1, [⟨"g1", "n", 10⟩]⟩ : GroupsResponse).count =
        [(⟨"g1", "n", 10⟩ : WhatsAppGroup)].length ∧
    (⟨true, 0, none, []⟩ : MessagesResponse).count = ([] : List Message).length :=
  C3_count_invariant ⟨"http://u", "k"⟩ ⟨"http://u", "k"⟩ none none
    (.response ⟨200, "", .ok (.obj [("count", .num 7),
      ("groups", .arr [.obj [("id", .str "g1"), ("name", .str "n"),
        ("participants", .num 10)]])])⟩)
    (.response ⟨200, "", .ok (.obj [("count", .num 9), ("messages", .arr [])])⟩)
    (.response ⟨200, "", .ok (.obj [("groups", .arr [])])⟩)
    "g1" 50 ⟨true, 1, [⟨"g1", "n", 10⟩]⟩ ⟨true, 0, none, []⟩ rfl rfl

/-- C4 counterexample: a message whose `timestamp` is present but not
parsable as a number (here the string `"abc"`) is skipped by the
per-message loop — it does not appear with date `"Unknown"`, so the
messages route returns an empty batch for it. -/
theorem C4_counterexample :
    processMsg (.obj [("id", .str "m1"), ("from_user", .str "u"),
      ("content", .str "hi"), ("timestamp", .str "abc")]) = none ∧
    (get_group_messages ⟨"http://u", "k"⟩ "g1" 50 none
        (.response ⟨200, "", .ok (.obj [("messages", .arr [.obj [("id", .str "m1"),
          ("from_user", .str "u"), ("content", .str "hi"),
          ("timestamp", .str "abc")]])])⟩)
        (.response ⟨200, "", .ok (.obj [("groups", .arr [])])⟩)).fst =
      .ok ⟨true, 0, none, []⟩ :=
  ⟨rfl, rfl⟩

/-- C4 amended: a message whose `timestamp` key is missing is kept with
date `"Unknown"` (when its remaining fields validate); a message whose
`timestamp` is present, truthy and not parsable as an integer is skipped;
and a skipped message never affects its siblings — the batch is the
per-message filter of the list. -/
theorem C4_amended_timestamp_fallback :
    (∀ fs i f c,
      lookupField fs "timestamp" = none →
      pyStrField ((lookupField fs "id").getD (.str "")) = some i →
      pyStrField ((lookupField fs "from_user").getD
        ((lookupField fs "from").getD (.str "Unknown"))) = some f →
      pyStrField ((lookupField fs "content").getD (.str "")) = some c →
      processMsg (.obj fs) = some ⟨i, f, c, 0, some "Unknown"⟩) ∧
    (∀ fs v, lookupField fs "timestamp" = some v → jsonTruthy v = true →
      pyInt v = none → processMsg (.obj fs) = none) ∧
    (∀ ms₁ ms₂ bad, processMsg bad = none →
      (ms₁ ++ bad :: ms₂).filterMap processMsg = (ms₁ ++ ms₂).filterMap processMsg) := by
  refine ⟨?_, ?_, ?_⟩
  · intro fs i f c ht hi hf hc
    simp [processMsg, ht, hi, hf, hc, pyIntField]
  · intro fs v ht htr hp
    simp [processMsg, ht, htr, hp]
  · intro ms₁ ms₂ bad hb
    simp [List.filterMap_append, List.filterMap_cons, hb]

/-- Witness for C4 amended: a message with no timestamp is kept with date
`"Unknown"`; one with timestamp `"abc"` is dropped without touching its
sibling. -/
theorem C4_amended_timestamp_fallback_witness :
    processMsg (.obj [("id", .str "m1"), ("from_user", .str "u"),
      ("content", .str "hi")]) = some ⟨"m1", "u", "hi", 0, some "Unknown"⟩ ∧
    processMsg (.obj [("timestamp", .str "abc")]) = none ∧
    ([.obj [("id", .str "m2"), ("from_user", .str "w"), ("content", .str "yo")],
      .obj [("timestamp", .str "abc")]].filterMap processMsg =
      [.obj [("id", .str "m2"), ("from_user", .str "w"),
        ("content", .str "yo")]].filterMap processMsg) :=
  ⟨C4_amended_timestamp_fallback.1 [("id", .str "m1"), ("from_user", .str "u"),
      ("content", .str "hi")] "m1" "u" "hi" rfl rfl rfl rfl,
   C4_amended_timestamp_fallback.2.1 [("timestamp", .str "abc")] (.str "abc")
      rfl (by decide) (by decide),
   C4_amended_timestamp_fallback.2.2
      [.obj [("id", .str "m2"), ("from_user", .str "w"), ("content", .str "yo")]] []
      (.obj [("timestamp", .str "abc")]) rfl⟩

/-- A group record that is an object lacking one of the required keys
fails the per-record conversion. -/
theorem parseGroup_error_of_missing (g : Json) (hbad : missingGroupKey g = true) :
    ∃ e, parseGroup g = .error e := by
  cases g with
  | obj fs =>
    rcases h1 : lookupField fs "id" with _ | v1
    · exact ⟨"KeyError: id", by simp [parseGroup, itemAccess, h1]⟩
    · rcases h2 : lookupField fs "name" with _ | v2
      · exact ⟨"KeyError: name", by simp [parseGroup, itemAccess, h1, h2]⟩
      · rcases h3 : lookupField fs "participants" with _ | v3
        · exact ⟨"KeyError: participants", by simp [parseGroup, itemAccess, h1, h2, h3]⟩
        · simp [missingGroupKey, h1, h2, h3] at hbad
  | null => simp [missingGroupKey] at hbad
  | bool b => simp [missingGroupKey] at hbad
  | num n => simp [missingGroupKey] at hbad
  | str s => simp [missingGroupKey] at hbad
  | arr xs => simp [missingGroupKey] at hbad

/-- One failing record aborts the whole list conversion. -/
theorem parseGroupList_error_of_mem (gs : List Json) (g : Json) (hmem : g ∈ gs)
    (hbad : ∃ e, parseGroup g = .error e) :
    ∃ e, parseGroupList gs = .error e := by
  induction gs with
  | nil => cases hmem
  | cons g0 gs ih =>
    rcases List.mem_cons.mp hmem with h | h
    · subst h
      obtain ⟨e, he⟩ := hbad
      exact ⟨e, by simp [parseGroupList, he]⟩
    · cases hp : parseGroup g0 with
      | error e0 => exact ⟨e0, by simp [parseGroupList, hp]⟩
      | ok w =>
        obtain ⟨e, he⟩ := ih h
        exact ⟨e, by simp [parseGroupList, hp, he]⟩

/-- C9: when the upstream groups payload is a 200 whose `groups` array
contains an object lacking an `"id"`, `"name"` or `"participants"` key,
the whole request fails with a 503 (the conversion exception reaches the
generic handler) — there is no per-record skipping on this route. -/
theorem C9_malformed_group_fails_request (env : Env) (auth : Option String)
    (txt : String) (gfs : List (String × Json)) (gs : List Json) (g : Json)
    (hauth : (!truthyOpt auth && env.apiKey == "") = false)
    (hgs : (lookupField gfs "groups").getD (.arr []) = .arr gs)
    (hmem : g ∈ gs) (hbad : missingGroupKey g = true) :
    ∃ e, (get_whatsapp_groups env auth (.response ⟨200, txt, .ok (.obj gfs)⟩)).fst =
      .httpError 503 ("WhatsApp service unavailable: " ++ e) := by
  obtain ⟨e, he⟩ := parseGroupList_error_of_mem gs g hmem (parseGroup_error_of_missing g hbad)
  refine ⟨e, ?_⟩
  simp [get_whatsapp_groups, hauth, groupsFromJson, dictGetD, hgs, pyIter, he]

/-- Witness for C9: one group record lacking `"name"` fails the whole
groups request with a 503. -/
theorem C9_malformed_group_fails_request_witness :
    ∃ e, (get_whatsapp_groups ⟨"http://u", "k"⟩ none
        (.response ⟨200, "", .ok (.obj [("groups",
          .arr [.obj [("id", .str "g1")]])])⟩)).fst =
      .httpError 503 ("WhatsApp service unavailable: " ++ e) :=
  C9_malformed_group_fails_request ⟨"http://u", "k"⟩ none ""
    [("groups", .arr [.obj [("id", .str "g1")]])] [.obj [("id", .str "g1")]]
    (.obj [("id", .str "g1")]) (by decide) rfl (List.mem_cons_self _ _) (by decide)

/-- Inversion of a successful subscript access. -/
theorem itemAccess_ok_iff (g : Json) (k : String) (v : Json) :
    itemAccess g k = .ok v ↔ ∃ fs, g = .obj fs ∧ lookupField fs k = some v := by
  cases g with
  | obj fs =>
    cases h : lookupField fs k with
    | none => simp [itemAccess, h]
    | some w => simp [itemAccess, h, eq_comm]
  | null => simp [itemAccess]
  | bool b => simp [itemAccess]
  | num n => simp [itemAccess]
  | str s => simp [itemAccess]
  | arr xs => simp [itemAccess]

/-- The source loop agrees with the specification-side first-match
definition whenever it completes without an exception. -/
theorem resolveGroupName_spec (gs : List Json) (gid : String)
    (v : Option Json) (h : resolveGroupName gs gid = .ok v) :
    v = specFirstGroupName gs gid := by
  induction gs generalizing v with
  | nil =>
    simp [resolveGroupName] at h
    simp [specFirstGroupName, ← h]
  | cons g gs ih =>
    rw [resolveGroupName] at h
    cases hid : itemAccess g "id" with
    | error e => rw [hid] at h; cases h
    | ok idJ =>
      rw [hid] at h
      obtain ⟨fs, hgfs, hlk⟩ := (itemAccess_ok_iff g "id" idJ).mp hid
      subst hgfs
      by_cases hm : pyEqStr idJ gid = true
      · simp only [hm, if_true] at h
        cases hn : itemAccess (.obj fs) "name" with
        | error e => rw [hn] at h; cases h
        | ok nameJ =>
          rw [hn] at h
          cases h
          obtain ⟨fs2, hgfs2, hlk2⟩ := (itemAccess_ok_iff _ "name" nameJ).mp hn
          cases hgfs2
          have hpred : groupIdMatches (.obj fs) gid = true := by
            simp [groupIdMatches, hlk, hm]
          have hfind : List.find? (fun g => groupIdMatches g gid) (Json.obj fs :: gs) =
              some (Json.obj fs) := List.find?_cons_of_pos _ hpred
          simp [specFirstGroupName, hfind, hlk2]
      · have hm' : pyEqStr idJ gid = false := by simpa using hm
        simp only [hm', if_false] at h
        have hpred : groupIdMatches (.obj fs) gid = false := by
          simp [groupIdMatches, hlk, hm']
        have hfind : List.find? (fun g => groupIdMatches g gid) (Json.obj fs :: gs) =
            List.find? (fun g => groupIdMatches g gid) gs :=
          List.find?_cons_of_neg _ (by simp [hpred])
        rw [ih v h]
        simp [specFirstGroupName, hfind]

/-- A successful messages transformation determines the reported group
name from the loop over the secondary groups list. -/
theorem buildMessagesResponse_group_name (data : Json) (gfs : List (String × Json))
    (gid : String) (gs : List Json) (mr : MessagesResponse)
    (hgs : (lookupField gfs "groups").getD (.arr []) = .arr gs)
    (h : buildMessagesResponse data (.obj gfs) gid = .ok mr) :
    ∃ nameJ, resolveGroupName gs gid = .ok nameJ ∧
      pyOptStrField (nameJ.getD .null) = some mr.group_name := by
  unfold buildMessagesResponse at h
  simp only [dictGetD, hgs, pyIter] at h
  repeat' split at h
  all_goals cases h
  all_goals exact ⟨_, by assumption, by assumption⟩

/-- Inversion of a successful messages request: both upstream calls were
made (messages then groups), both bodies parsed, the transformation
succeeded, and the trace is exactly the two GET calls. -/
theorem get_group_messages_ok_inv (env : Env) (gid : String) (lim : Int)
    (auth : Option String) (um ug : CallResult) (mr : MessagesResponse)
    (tr : List UpstreamCall)
    (hok : get_group_messages env gid lim auth um ug = (.ok mr, tr)) :
    ∃ rm rg data gdata, um = .response rm ∧ ug = .response rg ∧
      rm.jsonBody = .ok data ∧ rg.jsonBody = .ok gdata ∧
      buildMessagesResponse data gdata gid = .ok mr ∧
      tr = [⟨"GET", env.serviceUrl ++ "/api/messages/" ++ gid ++ "?limit=" ++
          toString lim, get_headers env.apiKey auth, none⟩,
        ⟨"GET", env.serviceUrl ++ "/api/groups", get_headers env.apiKey auth, none⟩] := by
  unfold get_group_messages at hok
  repeat' split at hok
  all_goals injection hok with h1 h2
  all_goals try injection h1
  all_goals subst_vars
  exact ⟨_, _, _, _, rfl, rfl, by assumption, by assumption, by assumption, rfl⟩

/-- C8: on every successful messages request the gateway performed a
second upstream call to the group list, and the reported `group_name` is
the `"name"` of the first group record whose `"id"` equals the requested
id — `none` when no record matches. -/
theorem C8_group_name_resolution (env : Env) (gid : String) (lim : Int)
    (auth : Option String) (rm rg : HttpResponse) (gfs : List (String × Json))
    (gs : List Json) (mr : MessagesResponse) (tr : List UpstreamCall)
    (hg : rg.jsonBody = .ok (.obj gfs))
    (hgs : (lookupField gfs "groups").getD (.arr []) = .arr gs)
    (hok : get_group_messages env gid lim auth (.response rm) (.response rg) =
      (.ok mr, tr)) :
    tr = [⟨"GET", env.serviceUrl ++ "/api/messages/" ++ gid ++ "?limit=" ++
        toString lim, get_headers env.apiKey auth, none⟩,
      ⟨"GET", env.serviceUrl ++ "/api/groups", get_headers env.apiKey auth, none⟩] ∧
    (specFirstGroupName gs gid = none → mr.group_name = none) ∧
    (∀ s, specFirstGroupName gs gid = some (.str s) → mr.group_name = some s) := by
  obtain ⟨rm2, rg2, data, gdata, hum, hug, hmb, hgb, hbuild, htr⟩ :=
    get_group_messages_ok_inv env gid lim auth (.response rm) (.response rg) mr tr hok
  have hrg : rg = rg2 := by injection hug
  subst hrg
  have hgd : Json.obj gfs = gdata := by
    have h2 := hg.symm.trans hgb
    injection h2
  cases hgd
  obtain ⟨nameJ, hres, hpy⟩ :=
    buildMessagesResponse_group_name data gfs gid gs mr hgs hbuild
  have hspec := resolveGroupName_spec gs gid nameJ hres
  refine ⟨htr, ?_, ?_⟩
  · intro hn
    rw [hspec, hn] at hpy
    simpa [pyOptStrField] using hpy.symm
  · intro s hsome
    rw [hspec, hsome] at hpy
    simpa [pyOptStrField] using hpy.symm

/-- Witness for C8 reproducing the example from the specification: the
group list contains `g1` named `"Physics 101"`, and the result reports
that name. -/
theorem C8_group_name_resolution_witness :
    (⟨true, 0, some "Physics 101", []⟩ : MessagesResponse).group_name =
      some "Physics 101" :=
  (C8_group_name_resolution ⟨"http://u", "k"⟩ "g1" 50 none
    ⟨200, "", .ok (.obj [("messages", .arr [])])⟩
    ⟨200, "", .ok (.obj [("groups", .arr [.obj [("id", .str "g1"),
      ("name", .str "Physics 101"), ("participants", .num 10)]])])⟩
    [("groups", .arr [.obj [("id", .str "g1"), ("name", .str "Physics 101"),
      ("participants", .num 10)]])]
    [.obj [("id", .str "g1"), ("name", .str "Physics 101"),
      ("participants", .num 10)]]
    ⟨true, 0, some "Physics 101", []⟩
    [⟨"GET", "http://u" ++ "/api/messages/" ++ "g1" ++ "?limit=" ++ toString (50 : Int),
      get_headers "k" none, none⟩,
     ⟨"GET", "http://u" ++ "/api/groups", get_headers "k" none, none⟩]
    rfl rfl rfl).2.2 "Physics 101" rfl

end Gateway
